import Mathlib

set_option maxRecDepth 8000

/-!
Verification of the github-mcp-server gateway (src/index.js and the second
server copy in src/unnamed/part_000).

The gateway forwards five GitHub operations (list_repositories, get_file,
create_or_update_file, create_branch, create_pull_request) to the upstream
GitHub REST API and exposes them both as REST endpoints and as a
tool-invocation endpoint (POST /execute).  We embed the handlers as pure
Lean functions over an oracle describing the upstream Octokit client, and
prove the specification's claims against them.
-/

namespace GithubMcp

/-- JSON values, with insertion-ordered object fields: `JSON.stringify`
preserves insertion order, so two equal `Json` trees serialize to the same
bytes, and two `Json` trees differing in a field value serialize to
different bytes. -/
inductive Json where
  | null : Json
  | bool (b : Bool) : Json
  | num (n : Int) : Json
  | str (s : String) : Json
  | arr (xs : List Json) : Json
  | obj (fs : List (String × Json)) : Json

/-! ### Base64 and UTF-8, as performed by Node's Buffer

`Buffer.from(content).toString('base64')` (src/index.js:232, 474) encodes
the UTF-8 bytes of `content` and renders them in base64;
`Buffer.from(data, 'base64').toString('utf-8')` (src/index.js:197, 442)
decodes base64 text back to bytes and re-reads them as UTF-8.  Bytes and
Unicode scalar values are modelled as `Nat`. -/

/-- The base64 alphabet in index order. -/
def b64Alphabet : List Char :=
  "ABCDEFGHIJKLMNOPQRSTUVWXYZabcdefghijklmnopqrstuvwxyz0123456789+/".data

/-- Character for a sextet value. -/
def sextetChar (n : Nat) : Char := b64Alphabet.getD n 'A'

/-- Sextet value of a base64 character; `none` for characters outside the
alphabet (in particular the padding character). -/
def charSextet (c : Char) : Option Nat := b64Alphabet.findIdx? (fun d => d == c)

/-- Pack bytes into base64 sextets, three bytes to four sextets, with the
standard short final group for a trailing one or two bytes. -/
def sextetsOfBytes : List Nat → List Nat
  | [] => []
  | [a] => [a / 4, a % 4 * 16]
  | [a, b] => [a / 4, a % 4 * 16 + b / 16, b % 16 * 4]
  | a :: b :: c :: rest =>
      a / 4 :: (a % 4 * 16 + b / 16) :: (b % 16 * 4 + c / 64) :: c % 64 ::
        sextetsOfBytes rest

/-- Unpack base64 sextets back into bytes, four sextets to three bytes, with
the standard short final group. -/
def bytesOfSextets : List Nat → List Nat
  | x :: y :: z :: w :: rest =>
      (x * 4 + y / 16) :: (y % 16 * 16 + z / 4) :: (z % 4 * 64 + w) ::
        bytesOfSextets rest
  | [x, y] => [x * 4 + y / 16]
  | [x, y, z] => [x * 4 + y / 16, y % 16 * 16 + z / 4]
  | _ => []

/-- Base64 padding: Node pads the output to a multiple of four characters. -/
def b64Pad (n : Nat) : List Char :=
  if n % 3 = 1 then ['=', '='] else if n % 3 = 2 then ['='] else []

/-- `Buffer.prototype.toString('base64')` on a byte sequence. -/
def bytesToBase64 (l : List Nat) : String :=
  String.mk ((sextetsOfBytes l).map sextetChar ++ b64Pad l.length)

/-- `Buffer.from(s, 'base64')`: characters outside the alphabet (including
padding) are skipped, the sextets are repacked into bytes. -/
def base64ToBytes (s : String) : List Nat :=
  bytesOfSextets (s.data.filterMap charSextet)

/-- UTF-8 encoding of one Unicode scalar value. -/
def utf8EncodeChar (c : Nat) : List Nat :=
  if c < 0x80 then [c]
  else if c < 0x800 then [0xC0 + c / 64, 0x80 + c % 64]
  else if c < 0x10000 then [0xE0 + c / 4096, 0x80 + c / 64 % 64, 0x80 + c % 64]
  else [0xF0 + c / 262144, 0x80 + c / 4096 % 64, 0x80 + c / 64 % 64, 0x80 + c % 64]

/-- UTF-8 encoding of a sequence of scalar values. -/
def utf8Encode (l : List Nat) : List Nat := (l.map utf8EncodeChar).flatten

/-- Number of continuation bytes demanded by a multi-byte lead byte. -/
def utf8Need (b0 : Nat) : Nat :=
  if b0 < 0xE0 then 1 else if b0 < 0xF0 then 2 else 3

/-- Payload bits carried by a multi-byte lead byte. -/
def utf8Lead (b0 : Nat) : Nat :=
  if b0 < 0xE0 then b0 - 0xC0 else if b0 < 0xF0 then b0 - 0xE0 else b0 - 0xF0

/-- Value of a run of continuation bytes. -/
def contBytesVal (l : List Nat) : Nat :=
  l.foldl (fun acc b => acc * 64 + (b - 0x80)) 0

/-- UTF-8 decoding of a byte sequence; a malformed sequence yields the
replacement character, as in Node's utf-8 decoder. -/
def utf8Decode : List Nat → List Nat
  | [] => []
  | b0 :: rest =>
    if b0 < 0x80 then b0 :: utf8Decode rest
    else if b0 < 0xC0 then 0xFFFD :: utf8Decode rest
    else if utf8Need b0 ≤ rest.length ∧
        ∀ b ∈ rest.take (utf8Need b0), 0x80 ≤ b ∧ b < 0xC0 then
      (utf8Lead b0 * 64 ^ utf8Need b0 + contBytesVal (rest.take (utf8Need b0))) ::
        utf8Decode (rest.drop (utf8Need b0))
    else 0xFFFD :: utf8Decode rest
termination_by l => l.length
decreasing_by all_goals simp <;> omega

/-- `Buffer.from(content).toString('base64')`: UTF-8 encode, then base64. -/
def encodeContentB64 (s : String) : String :=
  bytesToBase64 (utf8Encode (s.data.map Char.toNat))

/-- `Buffer.from(data, 'base64').toString('utf-8')`: base64 decode, then
read the bytes as UTF-8. -/
def decodeContentB64 (s : String) : String :=
  String.mk ((utf8Decode (base64ToBytes s)).map Char.ofNat)

theorem charSextet_sextetChar : ∀ n < 64, charSextet (sextetChar n) = some n := by
  decide

theorem bytesOfSextets_sextetsOfBytes :
    ∀ l : List Nat, (∀ b ∈ l, b < 256) → bytesOfSextets (sextetsOfBytes l) = l := by
  intro l
  induction l using sextetsOfBytes.induct with
  | case1 => intro _; rfl
  | case2 a =>
      intro h
      have ha : a < 256 := h a (by simp)
      simp [sextetsOfBytes, bytesOfSextets]
      omega
  | case3 a b =>
      intro h
      have ha : a < 256 := h a (by simp)
      have hb : b < 256 := h b (by simp)
      simp [sextetsOfBytes, bytesOfSextets]
      omega
  | case4 a b c rest ih =>
      intro h
      have ha : a < 256 := h a (by simp)
      have hb : b < 256 := h b (by simp)
      have hc : c < 256 := h c (by simp)
      have hrest : ∀ x ∈ rest, x < 256 := fun x hx => h x (by simp [hx])
      simp [sextetsOfBytes, bytesOfSextets, ih hrest]
      omega

theorem sextetsOfBytes_lt :
    ∀ l : List Nat, (∀ b ∈ l, b < 256) → ∀ s ∈ sextetsOfBytes l, s < 64 := by
  intro l
  induction l using sextetsOfBytes.induct with
  | case1 => intro _ s hs; simp [sextetsOfBytes] at hs
  | case2 a =>
      intro h s hs
      have ha : a < 256 := h a (by simp)
      simp [sextetsOfBytes] at hs
      rcases hs with hs | hs <;> omega
  | case3 a b =>
      intro h s hs
      have ha : a < 256 := h a (by simp)
      have hb : b < 256 := h b (by simp)
      simp [sextetsOfBytes] at hs
      rcases hs with hs | hs | hs <;> omega
  | case4 a b c rest ih =>
      intro h s hs
      have ha : a < 256 := h a (by simp)
      have hb : b < 256 := h b (by simp)
      have hc : c < 256 := h c (by simp)
      have hrest : ∀ x ∈ rest, x < 256 := fun x hx => h x (by simp [hx])
      simp [sextetsOfBytes] at hs
      rcases hs with hs | hs | hs | hs | hs
      · omega
      · omega
      · omega
      · omega
      · exact ih hrest s hs

theorem utf8Decode_utf8Encode :
    ∀ l : List Nat, (∀ c ∈ l, c < 0x110000) → utf8Decode (utf8Encode l) = l := by
  intro l
  induction l with
  | nil => intro _; simp [utf8Encode, utf8Decode]
  | cons c rest ih =>
    intro h
    have hc : c < 0x110000 := h c (by simp)
    have hrec : utf8Decode (utf8Encode rest) = rest :=
      ih (fun x hx => h x (by simp [hx]))
    have henc : utf8Encode (c :: rest) = utf8EncodeChar c ++ utf8Encode rest := by
      simp [utf8Encode]
    rw [henc]
    by_cases h1 : c < 0x80
    · rw [utf8EncodeChar, if_pos h1]
      simp only [List.cons_append, List.nil_append]
      rw [utf8Decode, if_pos h1, hrec]
    · by_cases h2 : c < 0x800
      · rw [utf8EncodeChar, if_neg h1, if_pos h2]
        simp only [List.cons_append, List.nil_append]
        rw [utf8Decode,
            if_neg (by omega : ¬ (0xC0 + c / 64 < 0x80)),
            if_neg (by omega : ¬ (0xC0 + c / 64 < 0xC0))]
        have hn : utf8Need (0xC0 + c / 64) = 1 := by
          rw [utf8Need, if_pos (by omega)]
        have hl : utf8Lead (0xC0 + c / 64) = c / 64 := by
          rw [utf8Lead, if_pos (by omega)]
          omega
        rw [hn, hl]
        rw [if_pos ?side2]
        case side2 =>
          constructor
          · simp
          · intro b hb
            simp [List.take] at hb
            omega
        simp only [List.take_succ_cons, List.take_zero, List.drop_succ_cons,
          List.drop_zero, contBytesVal, List.foldl, hrec]
        congr 1
        omega
      · by_cases h3 : c < 0x10000
        · rw [utf8EncodeChar, if_neg h1, if_neg h2, if_pos h3]
          simp only [List.cons_append, List.nil_append]
          rw [utf8Decode,
              if_neg (by omega : ¬ (0xE0 + c / 4096 < 0x80)),
              if_neg (by omega : ¬ (0xE0 + c / 4096 < 0xC0))]
          have hn : utf8Need (0xE0 + c / 4096) = 2 := by
            rw [utf8Need, if_neg (by omega), if_pos (by omega)]
          have hl : utf8Lead (0xE0 + c / 4096) = c / 4096 := by
            rw [utf8Lead, if_neg (by omega), if_pos (by omega)]
            omega
          rw [hn, hl]
          rw [if_pos ?side3]
          case side3 =>
            constructor
            · simp
            · intro b hb
              simp [List.take] at hb
              omega
          simp only [List.take_succ_cons, List.take_zero, List.drop_succ_cons,
            List.drop_zero, contBytesVal, List.foldl, hrec]
          congr 1
          omega
        · rw [utf8EncodeChar, if_neg h1, if_neg h2, if_neg h3]
          simp only [List.cons_append, List.nil_append]
          rw [utf8Decode,
              if_neg (by omega : ¬ (0xF0 + c / 262144 < 0x80)),
              if_neg (by omega : ¬ (0xF0 + c / 262144 < 0xC0))]
          have hn : utf8Need (0xF0 + c / 262144) = 3 := by
            rw [utf8Need, if_neg (by omega), if_neg (by omega)]
          have hl : utf8Lead (0xF0 + c / 262144) = c / 262144 := by
            rw [utf8Lead, if_neg (by omega), if_neg (by omega)]
            omega
          rw [hn, hl]
          rw [if_pos ?side4]
          case side4 =>
            constructor
            · simp
            · intro b hb
              simp [List.take] at hb
              omega
          simp only [List.take_succ_cons, List.take_zero, List.drop_succ_cons,
            List.drop_zero, contBytesVal, List.foldl, hrec]
          congr 1
          omega

theorem utf8Encode_lt :
    ∀ l : List Nat, (∀ c ∈ l, c < 0x110000) → ∀ b ∈ utf8Encode l, b < 256 := by
  intro l
  induction l with
  | nil => intro _ b hb; simp [utf8Encode] at hb
  | cons c rest ih =>
    intro h b hb
    have hc : c < 0x110000 := h c (by simp)
    have henc : utf8Encode (c :: rest) = utf8EncodeChar c ++ utf8Encode rest := by
      simp [utf8Encode]
    rw [henc, List.mem_append] at hb
    rcases hb with hb | hb
    · unfold utf8EncodeChar at hb
      by_cases h1 : c < 0x80
      · rw [if_pos h1] at hb; simp at hb; omega
      · rw [if_neg h1] at hb
        by_cases h2 : c < 0x800
        · rw [if_pos h2] at hb; simp at hb; rcases hb with rfl | rfl <;> omega
        · rw [if_neg h2] at hb
          by_cases h3 : c < 0x10000
          · rw [if_pos h3] at hb; simp at hb
            rcases hb with rfl | rfl | rfl <;> omega
          · rw [if_neg h3] at hb; simp at hb
            rcases hb with rfl | rfl | rfl | rfl <;> omega
    · exact ih (fun x hx => h x (by simp [hx])) b hb

theorem char_toNat_lt (c : Char) : c.toNat < 0x110000 := by
  have h := c.valid
  simp only [UInt32.isValidChar, Nat.isValidChar] at h
  show c.val.toNat < 0x110000
  rcases h with h | h <;> omega

theorem filterMap_charSextet_map_sextetChar :
    ∀ xs : List Nat, (∀ s ∈ xs, s < 64) →
      (xs.map sextetChar).filterMap charSextet = xs := by
  intro xs
  induction xs with
  | nil => intro _; rfl
  | cons x rest ih =>
    intro h
    have hx : x < 64 := h x (by simp)
    simp only [List.map_cons, List.filterMap_cons, charSextet_sextetChar x hx]
    rw [ih (fun s hs => h s (by simp [hs]))]

theorem filterMap_charSextet_b64Pad (n : Nat) :
    (b64Pad n).filterMap charSextet = [] := by
  unfold b64Pad
  split
  · decide
  · split
    · decide
    · rfl

/-- The two Buffer conversions are mutual inverses at the level of content
strings: decoding what was encoded returns the original string. -/
theorem decodeContentB64_encodeContentB64 (s : String) :
    decodeContentB64 (encodeContentB64 s) = s := by
  have hcp : ∀ c ∈ s.data.map Char.toNat, c < 0x110000 := by
    intro c hc
    simp only [List.mem_map] at hc
    obtain ⟨ch, _, rfl⟩ := hc
    exact char_toNat_lt ch
  have hbytes := utf8Encode_lt _ hcp
  unfold decodeContentB64 encodeContentB64 base64ToBytes bytesToBase64
  show String.mk ((utf8Decode (bytesOfSextets
      (((sextetsOfBytes (utf8Encode (s.data.map Char.toNat))).map sextetChar ++
        b64Pad (utf8Encode (s.data.map Char.toNat)).length).filterMap charSextet))).map
      Char.ofNat) = s
  rw [List.filterMap_append,
      filterMap_charSextet_map_sextetChar _ (sextetsOfBytes_lt _ hbytes),
      filterMap_charSextet_b64Pad, List.append_nil,
      bytesOfSextets_sextetsOfBytes _ hbytes,
      utf8Decode_utf8Encode _ hcp, List.map_map]
  have hid : s.data.map (Char.ofNat ∘ Char.toNat) = s.data :=
    List.map_id'' (fun x => Char.ofNat_toNat x) s.data
  rw [hid]

/-! ### Upstream client model

The Octokit client is the gateway's only collaborator.  Each method is an
oracle from the request the gateway builds to the upstream outcome: a thrown
error (carrying `error.message`) or response data.  The gateway's handlers
are deterministic functions of these oracles. -/

/-- A single file object as returned inside `octokit.repos.getContent`
response data: base64 `content`, revision `sha`, `size`, `path`. -/
structure ContentFile where
  content : String
  sha : String
  size : Nat
  path : String

/-- `file.data` from `octokit.repos.getContent`: a single file object, or an
array of entries when the path is a directory (`Array.isArray(file.data)`). -/
inductive ContentData where
  | file (f : ContentFile) : ContentData
  | dir (entries : List ContentFile) : ContentData

/-- Repository data from `octokit.repos.get`, of which only
`default_branch` is read. -/
structure RepoData where
  default_branch : String

/-- A git ref response: `data.object.sha`. -/
structure RefObj where
  sha : String

/-- Response data of `octokit.repos.createOrUpdateFileContents`:
`data.commit.sha` plus the `data.content` object passed through verbatim. -/
structure WriteResp where
  commitSha : String
  content : Json

/-- Response data of `octokit.pulls.create`, of which `number`, `html_url`
and `state` are read. -/
structure PullData where
  number : Int
  html_url : String
  state : String

/-- One repository entry from `octokit.repos.listForAuthenticatedUser`,
restricted to the fields the projection reads.  `description` is nullable
upstream. -/
structure RepoInfo where
  name : String
  full_name : String
  owner_login : String
  priv : Bool
  description : Option String
  html_url : String
  default_branch : String

/-- Request to `octokit.repos.listForAuthenticatedUser`. -/
structure ListReposReq where
  visibility : String
  sort : String
  per_page : Nat
  deriving DecidableEq

/-- Request to `octokit.repos.getContent`. -/
structure GetContentReq where
  owner : String
  repo : String
  path : String
  ref : Option String
  deriving DecidableEq

/-- Request to `octokit.repos.createOrUpdateFileContents`. -/
structure WriteFileReq where
  owner : String
  repo : String
  path : String
  message : String
  content : String
  branch : Option String
  sha : Option String
  deriving DecidableEq

/-- Request to `octokit.git.getRef`. -/
structure GetRefReq where
  owner : String
  repo : String
  ref : String
  deriving DecidableEq

/-- Request to `octokit.git.createRef`. -/
structure CreateRefReq where
  owner : String
  repo : String
  ref : String
  sha : String
  deriving DecidableEq

/-- Request to `octokit.pulls.create`. -/
structure CreatePullReq where
  owner : String
  repo : String
  title : String
  body : String
  head : String
  base : String
  deriving DecidableEq

/-- The upstream Octokit client as a record of oracles. -/
structure Octokit where
  listForAuthenticatedUser : ListReposReq → Except String (List RepoInfo)
  getContent : GetContentReq → Except String ContentData
  createOrUpdateFileContents : WriteFileReq → Except String WriteResp
  reposGet : String → String → Except String RepoData
  getRef : GetRefReq → Except String RefObj
  createRef : CreateRefReq → Except String RefObj
  pullsCreate : CreatePullReq → Except String PullData

/-! ### Request helpers -/

/-- JavaScript `x || d` on an optional string argument: `undefined` and the
empty string are falsy, any other string is kept. -/
def orDefault (v : Option String) (d : String) : String :=
  match v with
  | none => d
  | some s => if s = "" then d else s

/-- JavaScript template interpolation of a possibly-undefined string. -/
def tmpl (v : Option String) : String :=
  match v with
  | none => "undefined"
  | some s => s

/-- `existing.data.sha` under the existence-check try/catch: the revision
token when the read produced a file object, `undefined` when the read threw
or produced a directory array (which has no `sha` property). -/
def shaOfRead (r : Except String ContentData) : Option String :=
  match r with
  | .ok (.file f) => some f.sha
  | _ => none

/-- `JSON.stringify` drops a field whose value is `undefined`: an optional
string renders as a field only when present. -/
def optStrField (k : String) (v : Option String) : List (String × Json) :=
  match v with
  | some s => [(k, Json.str s)]
  | none => []

/-- An `{error: message}` body. -/
def errJson (msg : String) : Json := Json.obj [("error", Json.str msg)]

/-- A nullable upstream string field. -/
def nullableStr (v : Option String) : Json :=
  match v with
  | none => Json.null
  | some s => Json.str s

/-- The `getContent` request both contents handlers build from their
arguments (owner, repo, path, optional branch as `ref`). -/
def readReq (owner repo path : String) (branch : Option String) : GetContentReq :=
  ⟨owner, repo, path, branch⟩

/-- The `createOrUpdateFileContents` request both write handlers build:
base64-encoded content, pass-through branch, and the optional revision
token from the existence check. -/
def writeReq (owner repo path content message : String) (branch : Option String)
    (sha : Option String) : WriteFileReq :=
  ⟨owner, repo, path, message, encodeContentB64 content, branch, sha⟩

/-- The `listForAuthenticatedUser` request both list handlers build. -/
def listReq (visibility : Option String) : ListReposReq :=
  ⟨orDefault visibility "all", "updated", 100⟩

/-! ### REST adapter (src/index.js:158-301)

Each handler returns the HTTP status and the JSON body it sends. -/

/-- `GET /repos` (src/index.js:158-178). -/
def restListRepos (ok : Octokit) (visibility : Option String) : Nat × Json :=
  match ok.listForAuthenticatedUser (listReq visibility) with
  | .error e => (500, errJson e)
  | .ok repos =>
      (200, Json.arr (repos.map (fun r => Json.obj
        [("name", Json.str r.name),
         ("full_name", Json.str r.full_name),
         ("owner", Json.str r.owner_login),
         ("private", Json.bool r.priv),
         ("description", nullableStr r.description),
         ("url", Json.str r.html_url),
         ("default_branch", Json.str r.default_branch)])))

/-- `GET /repos/:owner/:repo/contents/*` (src/index.js:180-206). -/
def restGetFile (ok : Octokit) (owner repo path : String) (branch : Option String) :
    Nat × Json :=
  match ok.getContent (readReq owner repo path branch) with
  | .error e => (500, errJson e)
  | .ok (.dir _) => (400, errJson "Path is a directory")
  | .ok (.file f) =>
      (200, Json.obj
        [("content", Json.str (decodeContentB64 f.content)),
         ("sha", Json.str f.sha),
         ("size", Json.num f.size),
         ("path", Json.str f.path)])

/-- `PUT /repos/:owner/:repo/contents/*` (src/index.js:208-245). -/
def restPutFile (ok : Octokit) (owner repo path content message : String)
    (branch : Option String) : Nat × Json :=
  let sha := shaOfRead (ok.getContent (readReq owner repo path branch))
  match ok.createOrUpdateFileContents (writeReq owner repo path content message branch sha) with
  | .error e => (500, errJson e)
  | .ok w =>
      (200, Json.obj
        [("success", Json.bool true),
         ("commit", Json.str w.commitSha),
         ("content", w.content)])

/-- `POST /repos/:owner/:repo/branches` (src/index.js:247-276). -/
def restCreateBranch (ok : Octokit) (owner repo : String)
    (branch from_branch : Option String) : Nat × Json :=
  match ok.reposGet owner repo with
  | .error e => (500, errJson e)
  | .ok repoData =>
      let fromBranch := orDefault from_branch repoData.default_branch
      match ok.getRef ⟨owner, repo, "heads/" ++ fromBranch⟩ with
      | .error e => (500, errJson e)
      | .ok ref =>
          match ok.createRef ⟨owner, repo, "refs/heads/" ++ tmpl branch, ref.sha⟩ with
          | .error e => (500, errJson e)
          | .ok newBranch =>
              (200, Json.obj
                ([("success", Json.bool true)] ++
                 optStrField "branch" branch ++
                 [("sha", Json.str newBranch.sha)]))

/-- `POST /repos/:owner/:repo/pulls` (src/index.js:278-301). -/
def restCreatePull (ok : Octokit) (owner repo title : String) (body : Option String)
    (head base : String) : Nat × Json :=
  match ok.pullsCreate ⟨owner, repo, title, orDefault body "", head, base⟩ with
  | .error e => (500, errJson e)
  | .ok pr =>
      (200, Json.obj
        [("success", Json.bool true),
         ("number", Json.num pr.number),
         ("url", Json.str pr.html_url),
         ("state", Json.str pr.state)])

/-! ### Tool-invocation adapter (src/index.js:404-551, identical in
src/unnamed/part_000:139-286)

`POST /execute` receives `{tool, arguments}`.  The `arguments` object is
accessed field by field; `visibility`, `branch`, `from_branch` and `body`
are the fields the handlers treat as optional. -/

/-- The `arguments` object of a `POST /execute` request. -/
structure Args where
  owner : String
  repo : String
  path : String
  content : String
  message : String
  title : String
  head : String
  base : String
  branch : Option String
  from_branch : Option String
  visibility : Option String
  body : Option String

/-- `case 'get_file'` (src/index.js:429-451). -/
def execGetFile (ok : Octokit) (a : Args) : Json :=
  match ok.getContent (readReq a.owner a.repo a.path a.branch) with
  | .error e => errJson e
  | .ok (.dir _) => errJson "Path is a directory, not a file"
  | .ok (.file f) =>
      Json.obj
        [("content", Json.str (decodeContentB64 f.content)),
         ("sha", Json.str f.sha),
         ("size", Json.num f.size),
         ("path", Json.str f.path)]

/-- `case 'create_or_update_file'` (src/index.js:453-487). -/
def execCreateOrUpdateFile (ok : Octokit) (a : Args) : Json :=
  let sha := shaOfRead (ok.getContent (readReq a.owner a.repo a.path a.branch))
  match ok.createOrUpdateFileContents
      (writeReq a.owner a.repo a.path a.content a.message a.branch sha) with
  | .error e => errJson e
  | .ok w =>
      Json.obj
        [("success", Json.bool true),
         ("commit", Json.str w.commitSha),
         ("content", w.content)]

/-- `case 'create_branch'` (src/index.js:489-519). -/
def execCreateBranch (ok : Octokit) (a : Args) : Json :=
  match ok.reposGet a.owner a.repo with
  | .error e => errJson e
  | .ok repoData =>
      let fromBranch := orDefault a.from_branch repoData.default_branch
      match ok.getRef ⟨a.owner, a.repo, "heads/" ++ fromBranch⟩ with
      | .error e => errJson e
      | .ok ref =>
          match ok.createRef ⟨a.owner, a.repo, "refs/heads/" ++ tmpl a.branch, ref.sha⟩ with
          | .error e => errJson e
          | .ok newBranch =>
              Json.obj
                ([("success", Json.bool true)] ++
                 optStrField "branch" a.branch ++
                 [("sha", Json.str newBranch.sha)])

/-- `case 'create_pull_request'` (src/index.js:521-541). -/
def execCreatePull (ok : Octokit) (a : Args) : Json :=
  match ok.pullsCreate ⟨a.owner, a.repo, a.title, orDefault a.body "", a.head, a.base⟩ with
  | .error e => errJson e
  | .ok pr =>
      Json.obj
        [("success", Json.bool true),
         ("number", Json.num pr.number),
         ("url", Json.str pr.html_url),
         ("state", Json.str pr.state)]

/-- The whole `POST /execute` handler: status and JSON body.  The four
tools above run inside their own try/catch, so their failures become the
`result` value; `case 'list_repositories'` (src/index.js:412-427) has no
inner try/catch, so an upstream error there reaches the outer catch
(src/index.js:548-550), which sends status 500 with `{error}`. -/
def executePost (ok : Octokit) (tool : String) (a : Args) : Nat × Json :=
  if tool = "list_repositories" then
    match ok.listForAuthenticatedUser (listReq a.visibility) with
    | .error e => (500, errJson e)
    | .ok repos =>
        (200, Json.obj [("result", Json.arr (repos.map (fun r => Json.obj
          [("name", Json.str r.name),
           ("full_name", Json.str r.full_name),
           ("owner", Json.str r.owner_login),
           ("private", Json.bool r.priv),
           ("description", nullableStr r.description),
           ("url", Json.str r.html_url),
           ("default_branch", Json.str r.default_branch)])))])
  else if tool = "get_file" then
    (200, Json.obj [("result", execGetFile ok a)])
  else if tool = "create_or_update_file" then
    (200, Json.obj [("result", execCreateOrUpdateFile ok a)])
  else if tool = "create_branch" then
    (200, Json.obj [("result", execCreateBranch ok a)])
  else if tool = "create_pull_request" then
    (200, Json.obj [("result", execCreatePull ok a)])
  else
    (200, Json.obj [("result", errJson ("Unknown tool: " ++ tool))])

/-- Remove the `{result: ...}` wrapper the tool-invocation adapter puts
around its 200-responses; a body of any other shape is left alone. -/
def unwrapResult (j : Json) : Json :=
  match j with
  | .obj [("result", r)] => r
  | j => j

/-! ### Discovery descriptors -/

/-- Shorthand for the repeated `{type: 'string', description: d}` property
schema literal. -/
def propStr (d : String) : Json :=
  Json.obj [("type", Json.str "string"), ("description", Json.str d)]

/-- The `tools` array served by `GET /metadata` (src/index.js:51-126). -/
def metadataToolsJson : Json :=
  Json.arr
    [Json.obj
      [("name", Json.str "list_repositories"),
       ("description", Json.str "List all accessible repositories"),
       ("inputSchema", Json.obj
         [("type", Json.str "object"),
          ("properties", Json.obj
            [("visibility", Json.obj
              [("type", Json.str "string"),
               ("enum", Json.arr [Json.str "all", Json.str "public", Json.str "private"]),
               ("description", Json.str "Filter by visibility")])])])],
     Json.obj
      [("name", Json.str "get_file"),
       ("description", Json.str "Get file contents from a repository"),
       ("inputSchema", Json.obj
         [("type", Json.str "object"),
          ("properties", Json.obj
            [("owner", propStr "Repository owner"),
             ("repo", propStr "Repository name"),
             ("path", propStr "File path"),
             ("branch", propStr "Branch name (optional)")]),
          ("required", Json.arr [Json.str "owner", Json.str "repo", Json.str "path"])])],
     Json.obj
      [("name", Json.str "create_or_update_file"),
       ("description", Json.str "Create or update a file in a repository"),
       ("inputSchema", Json.obj
         [("type", Json.str "object"),
          ("properties", Json.obj
            [("owner", propStr "Repository owner"),
             ("repo", propStr "Repository name"),
             ("path", propStr "File path"),
             ("content", propStr "File content"),
             ("message", propStr "Commit message"),
             ("branch", propStr "Branch name (optional)")]),
          ("required", Json.arr
            [Json.str "owner", Json.str "repo", Json.str "path",
             Json.str "content", Json.str "message"])])],
     Json.obj
      [("name", Json.str "create_branch"),
       ("description", Json.str "Create a new branch"),
       ("inputSchema", Json.obj
         [("type", Json.str "object"),
          ("properties", Json.obj
            [("owner", propStr "Repository owner"),
             ("repo", propStr "Repository name"),
             ("branch", propStr "New branch name"),
             ("from_branch", propStr "Source branch (optional)")]),
          ("required", Json.arr [Json.str "owner", Json.str "repo", Json.str "branch"])])],
     Json.obj
      [("name", Json.str "create_pull_request"),
       ("description", Json.str "Create a pull request"),
       ("inputSchema", Json.obj
         [("type", Json.str "object"),
          ("properties", Json.obj
            [("owner", propStr "Repository owner"),
             ("repo", propStr "Repository name"),
             ("title", propStr "PR title"),
             ("body", propStr "PR description"),
             ("head", propStr "Source branch"),
             ("base", propStr "Target branch")]),
          ("required", Json.arr
            [Json.str "owner", Json.str "repo", Json.str "title",
             Json.str "head", Json.str "base"])])]]

/-- The `tools` array embedded in the `GET /sse` metadata event
(src/index.js:314-389, identical in src/unnamed/part_000:49-124). -/
def sseToolsJson : Json :=
  Json.arr
    [Json.obj
      [("name", Json.str "list_repositories"),
       ("description", Json.str "List all accessible repositories"),
       ("inputSchema", Json.obj
         [("type", Json.str "object"),
          ("properties", Json.obj
            [("visibility", Json.obj
              [("type", Json.str "string"),
               ("enum", Json.arr [Json.str "all", Json.str "public", Json.str "private"]),
               ("description", Json.str "Filter by visibility")])])])],
     Json.obj
      [("name", Json.str "get_file"),
       ("description", Json.str "Get file contents from a repository"),
       ("inputSchema", Json.obj
         [("type", Json.str "object"),
          ("properties", Json.obj
            [("owner", propStr "Repository owner"),
             ("repo", propStr "Repository name"),
             ("path", propStr "File path"),
             ("branch", propStr "Branch name (optional)")]),
          ("required", Json.arr [Json.str "owner", Json.str "repo", Json.str "path"])])],
     Json.obj
      [("name", Json.str "create_or_update_file"),
       ("description", Json.str "Create or update a file in a repository"),
       ("inputSchema", Json.obj
         [("type", Json.str "object"),
          ("properties", Json.obj
            [("owner", propStr "Repository owner"),
             ("repo", propStr "Repository name"),
             ("path", propStr "File path"),
             ("content", propStr "File content (will be base64 encoded)"),
             ("message", propStr "Commit message"),
             ("branch", propStr "Branch name (optional, defaults to default branch)")]),
          ("required", Json.arr
            [Json.str "owner", Json.str "repo", Json.str "path",
             Json.str "content", Json.str "message"])])],
     Json.obj
      [("name", Json.str "create_branch"),
       ("description", Json.str "Create a new branch"),
       ("inputSchema", Json.obj
         [("type", Json.str "object"),
          ("properties", Json.obj
            [("owner", propStr "Repository owner"),
             ("repo", propStr "Repository name"),
             ("branch", propStr "New branch name"),
             ("from_branch", propStr "Source branch (optional)")]),
          ("required", Json.arr [Json.str "owner", Json.str "repo", Json.str "branch"])])],
     Json.obj
      [("name", Json.str "create_pull_request"),
       ("description", Json.str "Create a pull request"),
       ("inputSchema", Json.obj
         [("type", Json.str "object"),
          ("properties", Json.obj
            [("owner", propStr "Repository owner"),
             ("repo", propStr "Repository name"),
             ("title", propStr "PR title"),
             ("body", propStr "PR description"),
             ("head", propStr "Source branch"),
             ("base", propStr "Target branch")]),
          ("required", Json.arr
            [Json.str "owner", Json.str "repo", Json.str "title",
             Json.str "head", Json.str "base"])])]]

/-- The body of `GET /metadata` (src/index.js:45-130). -/
def metadataJson : Json :=
  Json.obj
    [("name", Json.str "github-mcp-server"),
     ("version", Json.str "1.0.0"),
     ("description", Json.str "GitHub operations with read/write access"),
     ("protocol", Json.str "http"),
     ("tools", metadataToolsJson)]

/-- The metadata object of the initial `GET /sse` event
(src/index.js:310-390). -/
def sseMetadataJson : Json :=
  Json.obj
    [("name", Json.str "github-mcp-server"),
     ("version", Json.str "1.0.0"),
     ("description", Json.str "GitHub operations with read/write access"),
     ("tools", sseToolsJson)]

/-- The data of the initial `GET /sse` discovery event
(src/index.js:392). -/
def sseEventJson : Json :=
  Json.obj [("type", Json.str "metadata"), ("metadata", sseMetadataJson)]

/-- The body of `GET /.well-known/ai-plugin.json` (src/index.js:134-150). -/
def pluginManifestJson (host : String) : Json :=
  Json.obj
    [("schema_version", Json.str "v1"),
     ("name_for_human", Json.str "GitHub Manager"),
     ("name_for_model", Json.str "github"),
     ("description_for_human",
       Json.str "Manage GitHub repositories: read/write files, create branches, and PRs"),
     ("description_for_model",
       Json.str "Plugin for GitHub operations including listing repositories, reading/writing files, creating branches and pull requests."),
     ("auth", Json.obj [("type", Json.str "none")]),
     ("api", Json.obj
       [("type", Json.str "openapi"),
        ("url", Json.str ("https://" ++ host ++ "/openapi.json"))]),
     ("logo_url",
       Json.str "https://github.githubassets.com/images/modules/logos_page/GitHub-Mark.png"),
     ("contact_email", Json.str "support@example.com"),
     ("legal_info_url", Json.str "https://example.com/legal")]

/-! ### JSON inspection helpers -/

/-- Field lookup in a JSON object. -/
def jsonLookup (j : Json) (k : String) : Option Json :=
  match j with
  | .obj fs => (fs.find? (fun p => p.1 == k)).map Prod.snd
  | _ => none

/-- Element of a JSON array. -/
def jsonArrGet (j : Json) (i : Nat) : Option Json :=
  match j with
  | .arr xs => xs.get? i
  | _ => none

/-- The keys of a JSON object, in serialization order. -/
def objKeys (j : Json) : List String :=
  match j with
  | .obj fs => fs.map Prod.fst
  | _ => []

/-- The `name` fields of a descriptor's `tools` array. -/
def toolNames (j : Json) : List Json :=
  match jsonLookup j "tools" with
  | some (Json.arr xs) => xs.filterMap (fun t => jsonLookup t "name")
  | _ => []

/-- Walk from a `tools` array to the description of the `content` property
of the third tool (`create_or_update_file`): the field on which the two
descriptor copies differ. -/
def descProbe (o : Option Json) : Option Json :=
  ((((o.bind (fun j => jsonArrGet j 2)).bind
      (fun j => jsonLookup j "inputSchema")).bind
      (fun j => jsonLookup j "properties")).bind
      (fun j => jsonLookup j "content")).bind
      (fun j => jsonLookup j "description")

/-! ### A GitHub-like upstream

The upstream service itself is not part of this repository; to state the
read-then-write handshake property we give it a minimal model. -/

/-- A file as stored by the upstream service: base64 content, its current
revision token, and a size. -/
structure StoredFile where
  contentB64 : String
  sha : String
  size : Nat

/-- Upstream state: stored files keyed by owner, repo, path and requested
ref. -/
structure GitHubState where
  files : List ((String × String × String × Option String) × StoredFile)

/-- Lookup of a stored file. -/
def findFile (st : GitHubState) (k : String × String × String × Option String) :
    Option StoredFile :=
  (st.files.find? (fun p => decide (p.1 = k))).map Prod.snd

/-- Modelled from the spec: the upstream source-control hosting service's
content API, which is external to this repository.  Per the spec's data
model and glossary, `sha` is the content-addressed revision token: a read
returns the stored file and its token, a write of an existing file is
accepted exactly when it carries the current token, and a write of a fresh
path is accepted exactly when it carries no token.  Operations the
handshake claims do not touch are left failing. -/
def ghOctokit (st : GitHubState) : Octokit where
  listForAuthenticatedUser := fun _ => .error "unsupported"
  getContent := fun req =>
    match findFile st (req.owner, req.repo, req.path, req.ref) with
    | some f => .ok (.file ⟨f.contentB64, f.sha, f.size, req.path⟩)
    | none => .error "Not Found"
  createOrUpdateFileContents := fun req =>
    match findFile st (req.owner, req.repo, req.path, req.branch) with
    | some f =>
        if req.sha = some f.sha then .ok ⟨"commit-" ++ f.sha, Json.null⟩
        else .error "Conflict: revision token mismatch"
    | none =>
        match req.sha with
        | some _ => .error "Unprocessable: no such file"
        | none => .ok ⟨"commit-new", Json.null⟩
  reposGet := fun _ _ => .error "unsupported"
  getRef := fun _ => .error "unsupported"
  createRef := fun _ => .error "unsupported"
  pullsCreate := fun _ => .error "unsupported"

/-! ### Concrete oracles and inputs for witnesses -/

/-- An upstream where every call throws with message "unavailable". -/
def errOctokit : Octokit where
  listForAuthenticatedUser := fun _ => .error "unavailable"
  getContent := fun _ => .error "unavailable"
  createOrUpdateFileContents := fun _ => .error "unavailable"
  reposGet := fun _ _ => .error "unavailable"
  getRef := fun _ => .error "unavailable"
  createRef := fun _ => .error "unavailable"
  pullsCreate := fun _ => .error "unavailable"

/-- An upstream where every content read resolves to a directory. -/
def dirOctokit : Octokit :=
  { errOctokit with getContent := fun _ => .ok (.dir []) }

/-- One repository entry. -/
def demoRepoInfo : RepoInfo :=
  ⟨"demo", "octo/demo", "octo", false, some "a demo", "https://example.test/demo", "main"⟩

/-- An upstream where every call succeeds with small fixed data;
`createRef` echoes the requested commit, as the real service does. -/
def happyOctokit : Octokit where
  listForAuthenticatedUser := fun _ => .ok [demoRepoInfo]
  getContent := fun _ => .ok (.file ⟨encodeContentB64 "hi", "sha-1", 2, "notes.txt"⟩)
  createOrUpdateFileContents := fun _ => .ok ⟨"commit-1", Json.null⟩
  reposGet := fun _ _ => .ok ⟨"main"⟩
  getRef := fun _ => .ok ⟨"head-sha"⟩
  createRef := fun req => .ok ⟨req.sha⟩
  pullsCreate := fun _ => .ok ⟨7, "https://example.test/pull/7", "open"⟩

/-- An upstream whose repository listing honours the requested page size. -/
def honestListOctokit : Octokit :=
  { errOctokit with
    listForAuthenticatedUser := fun req =>
      .ok (if req.per_page = 0 then [] else [demoRepoInfo]) }

/-- A concrete `arguments` object. -/
def demoArgs : Args :=
  ⟨"octo", "demo", "notes.txt", "hi", "add notes", "a title", "feat", "main",
    none, none, none, none⟩

/-- A concrete `arguments` object carrying a new branch name. -/
def demoBranchArgs : Args :=
  { demoArgs with branch := some "feat" }

/-- An upstream state holding one stored file at demoArgs' coordinates. -/
def demoState : GitHubState :=
  ⟨[(("octo", "demo", "notes.txt", (none : Option String)),
     ⟨encodeContentB64 "hi", "sha-1", 2⟩)]⟩

/-! ### Claims -/

/-- C4: a `POST /execute` request whose tool field names none of the five
known tools yields HTTP 200 with body exactly
`{result: {error: "Unknown tool: <name>"}}`, where `<name>` is the supplied
tool name. -/
theorem c4_unknown_tool (ok : Octokit) (tool : String) (a : Args)
    (h : tool ≠ "list_repositories" ∧ tool ≠ "get_file" ∧
      tool ≠ "create_or_update_file" ∧ tool ≠ "create_branch" ∧
      tool ≠ "create_pull_request") :
    executePost ok tool a =
      (200, Json.obj [("result",
        Json.obj [("error", Json.str ("Unknown tool: " ++ tool))])]) := by
  obtain ⟨h1, h2, h3, h4, h5⟩ := h
  unfold executePost
  rw [if_neg h1, if_neg h2, if_neg h3, if_neg h4, if_neg h5]
  rfl

/-- Witness for C4 at the spec's own example `not_a_real_tool`. -/
theorem c4_unknown_tool_witness :
    executePost errOctokit "not_a_real_tool" demoArgs =
      (200, Json.obj [("result",
        Json.obj [("error", Json.str "Unknown tool: not_a_real_tool")])]) := by
  have h := c4_unknown_tool errOctokit "not_a_real_tool" demoArgs
    (by refine ⟨?_, ?_, ?_, ?_, ?_⟩ <;> decide)
  rw [h]
  rfl

/-- C3 is false as stated: an upstream error inside the
`list_repositories` case of `POST /execute` reaches the outer catch and is
sent as HTTP 500 `{error}`, not as HTTP 200 `{result: {error}}`. -/
theorem c3_counterexample :
    executePost errOctokit "list_repositories" demoArgs = (500, errJson "unavailable") ∧
    (executePost errOctokit "list_repositories" demoArgs).1 ≠ 200 := by
  refine ⟨rfl, ?_⟩
  intro hstatus
  rw [show executePost errOctokit "list_repositories" demoArgs =
      (500, errJson "unavailable") from rfl] at hstatus
  simp at hstatus

/-- C3 (amended): invocation failures inside `get_file`,
`create_or_update_file`, `create_branch`, `create_pull_request` and the
unknown-tool case are reported inside an HTTP 200 body of shape
`{result: ...}`; an upstream error in `list_repositories`, however,
surfaces as HTTP 500 with an unwrapped `{error: message}` body. -/
theorem c3_execute_statuses (ok : Octokit) (tool : String) (a : Args) :
    ((tool = "get_file" ∨ tool = "create_or_update_file" ∨ tool = "create_branch" ∨
        tool = "create_pull_request" ∨
        (tool ≠ "list_repositories" ∧ tool ≠ "get_file" ∧
         tool ≠ "create_or_update_file" ∧ tool ≠ "create_branch" ∧
         tool ≠ "create_pull_request")) →
      (executePost ok tool a).1 = 200 ∧
      ∃ r, (executePost ok tool a).2 = Json.obj [("result", r)]) ∧
    (∀ e, ok.listForAuthenticatedUser (listReq a.visibility) = .error e →
      executePost ok "list_repositories" a = (500, errJson e)) := by
  constructor
  · intro hcase
    rcases hcase with rfl | rfl | rfl | rfl | ⟨h1, h2, h3, h4, h5⟩
    · exact ⟨rfl, ⟨execGetFile ok a, rfl⟩⟩
    · exact ⟨rfl, ⟨execCreateOrUpdateFile ok a, rfl⟩⟩
    · exact ⟨rfl, ⟨execCreateBranch ok a, rfl⟩⟩
    · exact ⟨rfl, ⟨execCreatePull ok a, rfl⟩⟩
    · have h := c4_unknown_tool ok tool a ⟨h1, h2, h3, h4, h5⟩
      rw [h]
      exact ⟨rfl, ⟨Json.obj [("error", Json.str ("Unknown tool: " ++ tool))], rfl⟩⟩
  · intro e he
    unfold executePost
    rw [if_pos rfl, he]

/-- Witness for the amended C3. -/
theorem c3_execute_statuses_witness :
    ((executePost errOctokit "get_file" demoArgs).1 = 200 ∧
      ∃ r, (executePost errOctokit "get_file" demoArgs).2 = Json.obj [("result", r)]) ∧
    executePost errOctokit "list_repositories" demoArgs = (500, errJson "unavailable") :=
  ⟨(c3_execute_statuses errOctokit "get_file" demoArgs).1 (Or.inl rfl),
   (c3_execute_statuses errOctokit "list_repositories" demoArgs).2 "unavailable" rfl⟩

/-- C5 is false as stated: on a directory path the REST adapter's body is
`{error: "Path is a directory"}`, not the claimed
`{error: "Path is a directory, not a file"}`. -/
theorem c5_counterexample :
    (restGetFile dirOctokit "octo" "demo" "src" none).2 = errJson "Path is a directory" ∧
    errJson "Path is a directory" ≠ errJson "Path is a directory, not a file" := by
  refine ⟨rfl, ?_⟩
  intro h
  simp [errJson] at h

/-- C5 (amended): on a path that resolves to a directory the
tool-invocation adapter returns the domain error
`{error: "Path is a directory, not a file"}`, while the REST adapter
returns `{error: "Path is a directory"}` with status 400 (unlike the 500 it
uses for upstream transport errors). -/
theorem c5_directory (ok : Octokit) (a : Args) (entries : List ContentFile)
    (h : ok.getContent (readReq a.owner a.repo a.path a.branch) = .ok (.dir entries)) :
    execGetFile ok a = errJson "Path is a directory, not a file" ∧
    restGetFile ok a.owner a.repo a.path a.branch =
      (400, errJson "Path is a directory") := by
  constructor
  · unfold execGetFile
    rw [h]
  · unfold restGetFile
    rw [h]

/-- Witness for the amended C5. -/
theorem c5_directory_witness :
    execGetFile dirOctokit demoArgs = errJson "Path is a directory, not a file" ∧
    restGetFile dirOctokit demoArgs.owner demoArgs.repo demoArgs.path demoArgs.branch =
      (400, errJson "Path is a directory") :=
  c5_directory dirOctokit demoArgs [] rfl

/-- Outcome of the write call as the handlers render it. -/
def writeOutcomeJson (r : Except String WriteResp) : Json :=
  match r with
  | .error e => errJson e
  | .ok w =>
      Json.obj
        [("success", Json.bool true),
         ("commit", Json.str w.commitSha),
         ("content", w.content)]

/-- C2: when the existence-check read of `create_or_update_file` fails,
the failure is swallowed and the write proceeds with no revision token (a
create); when the read returns a file, its `sha` becomes the token (an
update); the result is in every case the rendered outcome of the write
call alone, and only a write error surfaces as `{error: message}`. -/
theorem c2_existence_check (ok : Octokit) (a : Args) :
    (∀ e, ok.getContent (readReq a.owner a.repo a.path a.branch) = .error e →
      execCreateOrUpdateFile ok a =
        writeOutcomeJson (ok.createOrUpdateFileContents
          (writeReq a.owner a.repo a.path a.content a.message a.branch none))) ∧
    (∀ f, ok.getContent (readReq a.owner a.repo a.path a.branch) = .ok (.file f) →
      execCreateOrUpdateFile ok a =
        writeOutcomeJson (ok.createOrUpdateFileContents
          (writeReq a.owner a.repo a.path a.content a.message a.branch (some f.sha)))) ∧
    (∀ e, ok.createOrUpdateFileContents
        (writeReq a.owner a.repo a.path a.content a.message a.branch
          (shaOfRead (ok.getContent (readReq a.owner a.repo a.path a.branch)))) = .error e →
      execCreateOrUpdateFile ok a = errJson e ∧
      restPutFile ok a.owner a.repo a.path a.content a.message a.branch =
        (500, errJson e)) := by
  refine ⟨?_, ?_, ?_⟩
  · intro e he
    have hsha : shaOfRead (ok.getContent (readReq a.owner a.repo a.path a.branch)) = none := by
      rw [he]
      rfl
    cases hw : ok.createOrUpdateFileContents
        (writeReq a.owner a.repo a.path a.content a.message a.branch none) with
    | error msg => simp only [execCreateOrUpdateFile, writeOutcomeJson, hsha, hw]
    | ok w => simp only [execCreateOrUpdateFile, writeOutcomeJson, hsha, hw]
  · intro f hf
    have hsha : shaOfRead (ok.getContent (readReq a.owner a.repo a.path a.branch)) =
        some f.sha := by
      rw [hf]
      rfl
    cases hw : ok.createOrUpdateFileContents
        (writeReq a.owner a.repo a.path a.content a.message a.branch (some f.sha)) with
    | error msg => simp only [execCreateOrUpdateFile, writeOutcomeJson, hsha, hw]
    | ok w => simp only [execCreateOrUpdateFile, writeOutcomeJson, hsha, hw]
  · intro e hw
    constructor
    · simp only [execCreateOrUpdateFile, hw]
    · simp only [restPutFile, hw]

/-- Witness for C2: with the whole upstream failing, the read failure is
swallowed and the write's own error is the result. -/
theorem c2_existence_check_witness :
    execCreateOrUpdateFile errOctokit demoArgs = errJson "unavailable" ∧
    restPutFile errOctokit demoArgs.owner demoArgs.repo demoArgs.path
      demoArgs.content demoArgs.message demoArgs.branch = (500, errJson "unavailable") :=
  (c2_existence_check errOctokit demoArgs).2.2 "unavailable" rfl

/-- C7: `create_branch` resolves the source branch as the explicit
`from_branch` if supplied, else the repository's configured default branch;
it reads that branch's head commit and creates the new ref pinned to that
same commit (the `createRef` request carries `ref.sha`); both adapters
return `{success: true, branch, sha}` with `sha` the commit the created
ref points at. -/
theorem c7_create_branch (ok : Octokit) (a : Args) (rd : RepoData) (ref nb : RefObj)
    (h1 : ok.reposGet a.owner a.repo = .ok rd)
    (h2 : ok.getRef
      ⟨a.owner, a.repo, "heads/" ++ orDefault a.from_branch rd.default_branch⟩ = .ok ref)
    (h3 : ok.createRef
      ⟨a.owner, a.repo, "refs/heads/" ++ tmpl a.branch, ref.sha⟩ = .ok nb) :
    execCreateBranch ok a =
      Json.obj ([("success", Json.bool true)] ++ optStrField "branch" a.branch ++
        [("sha", Json.str nb.sha)]) ∧
    restCreateBranch ok a.owner a.repo a.branch a.from_branch =
      (200, Json.obj ([("success", Json.bool true)] ++ optStrField "branch" a.branch ++
        [("sha", Json.str nb.sha)])) := by
  constructor
  · simp only [execCreateBranch, h1, h2, h3]
  · simp only [restCreateBranch, h1, h2, h3]

/-- Witness for C7, with no `from_branch` supplied: the configured default
branch "main" is the source, and the returned sha is the head commit the
new ref was pinned to. -/
theorem c7_create_branch_witness :
    execCreateBranch happyOctokit demoBranchArgs =
      Json.obj [("success", Json.bool true), ("branch", Json.str "feat"),
        ("sha", Json.str "head-sha")] := by
  have h := (c7_create_branch happyOctokit demoBranchArgs ⟨"main"⟩ ⟨"head-sha"⟩ ⟨"head-sha"⟩
    rfl rfl rfl).1
  rw [h]
  rfl

/-- The RepositorySummary projection both list handlers apply to each
upstream entry. -/
def repoSummaryJson (r : RepoInfo) : Json :=
  Json.obj
    [("name", Json.str r.name),
     ("full_name", Json.str r.full_name),
     ("owner", Json.str r.owner_login),
     ("private", Json.bool r.priv),
     ("description", nullableStr r.description),
     ("url", Json.str r.html_url),
     ("default_branch", Json.str r.default_branch)]

theorem executePost_list_ok (ok : Octokit) (a : Args) (repos : List RepoInfo)
    (hr : ok.listForAuthenticatedUser (listReq a.visibility) = .ok repos) :
    executePost ok "list_repositories" a =
      (200, Json.obj [("result", Json.arr (repos.map repoSummaryJson))]) := by
  unfold executePost
  rw [if_pos rfl, hr]
  rfl

theorem executePost_list_err (ok : Octokit) (a : Args) (e : String)
    (hr : ok.listForAuthenticatedUser (listReq a.visibility) = .error e) :
    executePost ok "list_repositories" a = (500, errJson e) := by
  unfold executePost
  rw [if_pos rfl, hr]

/-- C8: `list_repositories` defaults an absent visibility to "all", asks
upstream for the authenticated user's repositories sorted by
most-recently-updated with page size 100 (hence at most 100 results when
the upstream honours the page size), and projects every returned entry to
exactly the RepositorySummary fields. -/
theorem c8_list_repositories (ok : Octokit) (a : Args) :
    (a.visibility = none → listReq a.visibility = ⟨"all", "updated", 100⟩) ∧
    (listReq a.visibility).sort = "updated" ∧
    (listReq a.visibility).per_page = 100 ∧
    (∀ repos, ok.listForAuthenticatedUser (listReq a.visibility) = .ok repos →
      executePost ok "list_repositories" a =
        (200, Json.obj [("result", Json.arr (repos.map repoSummaryJson))]) ∧
      restListRepos ok a.visibility = (200, Json.arr (repos.map repoSummaryJson)) ∧
      (∀ j ∈ repos.map repoSummaryJson, objKeys j =
        ["name", "full_name", "owner", "private", "description", "url",
         "default_branch"])) ∧
    ((∀ req l, ok.listForAuthenticatedUser req = .ok l → l.length ≤ req.per_page) →
      ∀ repos, ok.listForAuthenticatedUser (listReq a.visibility) = .ok repos →
        repos.length ≤ 100) := by
  refine ⟨?_, rfl, rfl, ?_, ?_⟩
  · intro hv
    rw [hv]
    rfl
  · intro repos hr
    refine ⟨executePost_list_ok ok a repos hr, ?_, ?_⟩
    · unfold restListRepos
      rw [hr]
      rfl
    · intro j hj
      simp only [List.mem_map] at hj
      obtain ⟨r, _, rfl⟩ := hj
      rfl
  · intro hbound repos hr
    exact hbound (listReq a.visibility) repos hr

/-- Witness for C8 against an upstream honouring the page size. -/
theorem c8_list_repositories_witness :
    executePost honestListOctokit "list_repositories" demoArgs =
      (200, Json.obj [("result", Json.arr [repoSummaryJson demoRepoInfo])]) ∧
    ∀ repos,
      honestListOctokit.listForAuthenticatedUser (listReq demoArgs.visibility) = .ok repos →
        repos.length ≤ 100 := by
  have h := c8_list_repositories honestListOctokit demoArgs
  constructor
  · exact (h.2.2.2.1 [demoRepoInfo] rfl).1
  · refine h.2.2.2.2 ?_
    intro req l hl
    have h2 : (Except.ok (if req.per_page = 0 then ([] : List RepoInfo) else [demoRepoInfo]) :
        Except String (List RepoInfo)) = Except.ok l := hl
    have h3 := Except.ok.inj h2
    rw [← h3]
    by_cases hz : req.per_page = 0
    · rw [if_pos hz]
      simp [hz]
    · rw [if_neg hz]
      simp
      omega

/-- C10: supplying the empty string for a falsy-defaulted optional
argument behaves exactly as omitting it: empty visibility becomes "all",
empty from_branch falls back to the default branch, empty pull-request
body stays empty. -/
theorem c10_empty_strings (ok : Octokit) (a : Args) :
    executePost ok "list_repositories" { a with visibility := some "" } =
      executePost ok "list_repositories" { a with visibility := none } ∧
    execCreateBranch ok { a with from_branch := some "" } =
      execCreateBranch ok { a with from_branch := none } ∧
    restCreateBranch ok a.owner a.repo a.branch (some "") =
      restCreateBranch ok a.owner a.repo a.branch none ∧
    execCreatePull ok { a with body := some "" } =
      execCreatePull ok { a with body := none } ∧
    orDefault (some "") "" = "" :=
  ⟨rfl, rfl, rfl, rfl, rfl⟩

/-- C1 is false as stated: for a directory path the two adapters' bodies
differ byte-for-byte, `{error: "Path is a directory, not a file"}` against
`{error: "Path is a directory"}`. -/
theorem c1_counterexample :
    unwrapResult (executePost dirOctokit "get_file" demoArgs).2 ≠
      (restGetFile dirOctokit demoArgs.owner demoArgs.repo demoArgs.path demoArgs.branch).2 := by
  intro h
  rw [show unwrapResult (executePost dirOctokit "get_file" demoArgs).2 =
        errJson "Path is a directory, not a file" from rfl,
      show (restGetFile dirOctokit demoArgs.owner demoArgs.repo demoArgs.path
        demoArgs.branch).2 = errJson "Path is a directory" from rfl] at h
  simp [errJson] at h

/-- C1 (amended): for `list_repositories`, `create_or_update_file`,
`create_branch` and `create_pull_request`, and for `get_file` on every
upstream outcome except a directory, the REST body and the unwrapped
tool-invocation body are identical JSON trees (hence byte-for-byte equal
when serialized); on a directory the two bodies carry different error
messages. -/
theorem c1_adapters_agree (ok : Octokit) (a : Args) :
    unwrapResult (executePost ok "list_repositories" a).2 =
      (restListRepos ok a.visibility).2 ∧
    unwrapResult (executePost ok "create_or_update_file" a).2 =
      (restPutFile ok a.owner a.repo a.path a.content a.message a.branch).2 ∧
    unwrapResult (executePost ok "create_branch" a).2 =
      (restCreateBranch ok a.owner a.repo a.branch a.from_branch).2 ∧
    unwrapResult (executePost ok "create_pull_request" a).2 =
      (restCreatePull ok a.owner a.repo a.title a.body a.head a.base).2 ∧
    (∀ e, ok.getContent (readReq a.owner a.repo a.path a.branch) = .error e →
      unwrapResult (executePost ok "get_file" a).2 =
        (restGetFile ok a.owner a.repo a.path a.branch).2) ∧
    (∀ f, ok.getContent (readReq a.owner a.repo a.path a.branch) = .ok (.file f) →
      unwrapResult (executePost ok "get_file" a).2 =
        (restGetFile ok a.owner a.repo a.path a.branch).2) ∧
    (∀ entries, ok.getContent (readReq a.owner a.repo a.path a.branch) = .ok (.dir entries) →
      unwrapResult (executePost ok "get_file" a).2 =
        errJson "Path is a directory, not a file" ∧
      (restGetFile ok a.owner a.repo a.path a.branch).2 = errJson "Path is a directory") := by
  refine ⟨?_, ?_, ?_, ?_, ?_, ?_, ?_⟩
  · cases hr : ok.listForAuthenticatedUser (listReq a.visibility) with
    | error e =>
        rw [executePost_list_err ok a e hr]
        unfold restListRepos
        rw [hr]
        rfl
    | ok repos =>
        rw [executePost_list_ok ok a repos hr]
        unfold restListRepos
        rw [hr]
        rfl
  · show execCreateOrUpdateFile ok a =
      (restPutFile ok a.owner a.repo a.path a.content a.message a.branch).2
    cases hw : ok.createOrUpdateFileContents
        (writeReq a.owner a.repo a.path a.content a.message a.branch
          (shaOfRead (ok.getContent (readReq a.owner a.repo a.path a.branch)))) with
    | error e => simp only [execCreateOrUpdateFile, restPutFile, hw]
    | ok w => simp only [execCreateOrUpdateFile, restPutFile, hw]
  · show execCreateBranch ok a =
      (restCreateBranch ok a.owner a.repo a.branch a.from_branch).2
    cases h1 : ok.reposGet a.owner a.repo with
    | error e => simp only [execCreateBranch, restCreateBranch, h1]
    | ok rd =>
        cases h2 : ok.getRef
            ⟨a.owner, a.repo, "heads/" ++ orDefault a.from_branch rd.default_branch⟩ with
        | error e => simp only [execCreateBranch, restCreateBranch, h1, h2]
        | ok ref =>
            cases h3 : ok.createRef
                ⟨a.owner, a.repo, "refs/heads/" ++ tmpl a.branch, ref.sha⟩ with
            | error e => simp only [execCreateBranch, restCreateBranch, h1, h2, h3]
            | ok nb => simp only [execCreateBranch, restCreateBranch, h1, h2, h3]
  · show execCreatePull ok a =
      (restCreatePull ok a.owner a.repo a.title a.body a.head a.base).2
    cases hp : ok.pullsCreate
        ⟨a.owner, a.repo, a.title, orDefault a.body "", a.head, a.base⟩ with
    | error e => simp only [execCreatePull, restCreatePull, hp]
    | ok pr => simp only [execCreatePull, restCreatePull, hp]
  · intro e he
    show execGetFile ok a = (restGetFile ok a.owner a.repo a.path a.branch).2
    simp only [execGetFile, restGetFile, he]
  · intro f hf
    show execGetFile ok a = (restGetFile ok a.owner a.repo a.path a.branch).2
    simp only [execGetFile, restGetFile, hf]
  · intro entries hd
    constructor
    · show execGetFile ok a = errJson "Path is a directory, not a file"
      simp only [execGetFile, hd]
    · unfold restGetFile
      rw [hd]

/-- Witness for the amended C1 on a fully succeeding upstream. -/
theorem c1_adapters_agree_witness :
    unwrapResult (executePost happyOctokit "list_repositories" demoArgs).2 =
      (restListRepos happyOctokit demoArgs.visibility).2 ∧
    unwrapResult (executePost happyOctokit "create_or_update_file" demoArgs).2 =
      (restPutFile happyOctokit demoArgs.owner demoArgs.repo demoArgs.path
        demoArgs.content demoArgs.message demoArgs.branch).2 ∧
    unwrapResult (executePost happyOctokit "get_file" demoArgs).2 =
      (restGetFile happyOctokit demoArgs.owner demoArgs.repo demoArgs.path
        demoArgs.branch).2 := by
  have h := c1_adapters_agree happyOctokit demoArgs
  exact ⟨h.1, h.2.1,
    h.2.2.2.2.2.1 ⟨encodeContentB64 "hi", "sha-1", 2, "notes.txt"⟩ rfl⟩


/-- The two descriptor copies differ: the `content` property of
`create_or_update_file` carries different descriptions. -/
theorem toolsJson_ne : metadataToolsJson ≠ sseToolsJson := by
  intro h
  have h1 : descProbe (some metadataToolsJson) = some (Json.str "File content") := rfl
  have h2 : descProbe (some sseToolsJson) =
      some (Json.str "File content (will be base64 encoded)") := rfl
  rw [h] at h1
  rw [h2] at h1
  have h3 := Json.str.inj (Option.some.inj h1)
  exact absurd h3 (by decide)

/-- C6 is false as stated: the descriptor list served by `/metadata` and
the one served in the `/sse` discovery event are not identical (and the
plugin manifest serves no tool descriptors at all). -/
theorem c6_counterexample :
    ¬ (metadataToolsJson = sseToolsJson ∧
       ∀ host, jsonLookup (pluginManifestJson host) "tools" ≠ none) := by
  intro h
  exact toolsJson_ne h.1

/-- C6 (amended): both `/metadata` and the `/sse` discovery event list
exactly the five tools, in the same order and with the same names, but the
two descriptor lists are not identical — two property descriptions of
`create_or_update_file` differ — and the plugin-manifest endpoint carries
no tool descriptors, only a pointer to the OpenAPI document. -/
theorem c6_descriptors (host : String) :
    toolNames metadataJson =
      [Json.str "list_repositories", Json.str "get_file",
       Json.str "create_or_update_file", Json.str "create_branch",
       Json.str "create_pull_request"] ∧
    toolNames sseMetadataJson =
      [Json.str "list_repositories", Json.str "get_file",
       Json.str "create_or_update_file", Json.str "create_branch",
       Json.str "create_pull_request"] ∧
    jsonLookup sseEventJson "metadata" = some sseMetadataJson ∧
    metadataToolsJson ≠ sseToolsJson ∧
    jsonLookup (pluginManifestJson host) "tools" = none := by
  refine ⟨rfl, rfl, rfl, toolsJson_ne, rfl⟩

/-- C9: the content encoding of `create_or_update_file` and the content
decoding of `get_file` are mutual inverses, reading back a stored file
returns the string that was written, and `get_file` followed by
`create_or_update_file` with the unmodified content on the same
path/branch succeeds against the modelled upstream. -/
theorem c9_roundtrip (s : String) (st : GitHubState) (a : Args) (f : ContentFile)
    (hread : (ghOctokit st).getContent (readReq a.owner a.repo a.path a.branch) =
      .ok (.file f)) :
    decodeContentB64 (encodeContentB64 s) = s ∧
    (f.content = encodeContentB64 s →
      execGetFile (ghOctokit st) a =
        Json.obj [("content", Json.str s), ("sha", Json.str f.sha),
          ("size", Json.num f.size), ("path", Json.str f.path)]) ∧
    execCreateOrUpdateFile (ghOctokit st)
        { a with content := decodeContentB64 f.content } =
      Json.obj [("success", Json.bool true),
        ("commit", Json.str ("commit-" ++ f.sha)), ("content", Json.null)] := by
  refine ⟨decodeContentB64_encodeContentB64 s, ?_, ?_⟩
  · intro hc
    simp only [execGetFile, hread, hc, decodeContentB64_encodeContentB64 s]
  · have hfind :
        findFile st (a.owner, a.repo, a.path, a.branch) =
          some ⟨f.content, f.sha, f.size⟩ ∧ a.path = f.path := by
      have h0 : (ghOctokit st).getContent (readReq a.owner a.repo a.path a.branch) =
          (match findFile st (a.owner, a.repo, a.path, a.branch) with
           | some g => Except.ok (ContentData.file ⟨g.contentB64, g.sha, g.size, a.path⟩)
           | none => Except.error "Not Found") := rfl
      rw [h0] at hread
      cases hg : findFile st (a.owner, a.repo, a.path, a.branch) with
      | none => rw [hg] at hread; exact absurd hread (by simp)
      | some g =>
          rw [hg] at hread
          have h1 := ContentData.file.inj (Except.ok.inj hread)
          rw [← h1]
          exact ⟨rfl, rfl⟩
    obtain ⟨hfind, _⟩ := hfind
    have hsha : shaOfRead ((ghOctokit st).getContent
        (readReq a.owner a.repo a.path a.branch)) = some f.sha := by
      rw [hread]
      rfl
    show (match (ghOctokit st).createOrUpdateFileContents
        (writeReq a.owner a.repo a.path (decodeContentB64 f.content) a.message a.branch
          (shaOfRead ((ghOctokit st).getContent
            (readReq a.owner a.repo a.path a.branch)))) with
      | Except.error e => errJson e
      | Except.ok w => Json.obj [("success", Json.bool true),
          ("commit", Json.str w.commitSha), ("content", w.content)]) = _
    rw [hsha]
    have hw : (ghOctokit st).createOrUpdateFileContents
        (writeReq a.owner a.repo a.path (decodeContentB64 f.content) a.message a.branch
          (some f.sha)) = Except.ok ⟨"commit-" ++ f.sha, Json.null⟩ := by
      show (match findFile st (a.owner, a.repo, a.path, a.branch) with
        | some g =>
            if (some f.sha : Option String) = some g.sha
            then Except.ok (⟨"commit-" ++ g.sha, Json.null⟩ : WriteResp)
            else Except.error "Conflict: revision token mismatch"
        | none =>
            match (some f.sha : Option String) with
            | some _ => Except.error "Unprocessable: no such file"
            | none => Except.ok ⟨"commit-new", Json.null⟩) = _
      rw [hfind]
      dsimp only
      rw [if_pos rfl]
    rw [hw]

/-- Witness for C9 on a one-file upstream state. -/
theorem c9_roundtrip_witness :
    decodeContentB64 (encodeContentB64 "hi") = "hi" ∧
    execGetFile (ghOctokit demoState) demoArgs =
      Json.obj [("content", Json.str "hi"), ("sha", Json.str "sha-1"),
        ("size", Json.num 2), ("path", Json.str "notes.txt")] ∧
    execCreateOrUpdateFile (ghOctokit demoState)
        { demoArgs with content := decodeContentB64 (encodeContentB64 "hi") } =
      Json.obj [("success", Json.bool true), ("commit", Json.str "commit-sha-1"),
        ("content", Json.null)] := by
  have h := c9_roundtrip "hi" demoState demoArgs
    ⟨encodeContentB64 "hi", "sha-1", 2, "notes.txt"⟩ rfl
  exact ⟨h.1, h.2.1 rfl, h.2.2⟩


/-- Witness for the amended C6 at a concrete host. -/
theorem c6_descriptors_witness :
    jsonLookup (pluginManifestJson "example.test") "tools" = none :=
  (c6_descriptors "example.test").2.2.2.2

/-- Witness for C10 at a concrete upstream and argument set. -/
theorem c10_empty_strings_witness :
    executePost errOctokit "list_repositories" { demoArgs with visibility := some "" } =
      executePost errOctokit "list_repositories" { demoArgs with visibility := none } ∧
    orDefault (some "") "" = "" :=
  ⟨(c10_empty_strings errOctokit demoArgs).1,
   (c10_empty_strings errOctokit demoArgs).2.2.2.2⟩


end GithubMcp
